import Mathlib

/-!
Shallow embedding of the TLS listener core of this repository: the ACME
certificate renewal loop spawned by `Builder::build`
(crates/core/src/conn/acme/listener.rs), the cache-loading prefix of that
same build, the ALPN list it installs, the hot-reloadable accept loop of
`OpensslListener` (crates/core/src/conn/openssl/listener.rs), the
deferred-handshake `OpensslStream`, and `NativeTlsConfig::identity`
(crates/core/src/conn/native_tls/config.rs).

Asynchronous behaviour is embedded by making each suspension point an
explicit input: the renewal loop consumes the per-iteration outcome of
`Weak::upgrade` as a list of booleans, the accept loop consumes the
resolved order of its `tokio::select!` races as a list of events, and the
poll methods of the stream wrapper take the result of polling the inner
handshake / inner stream as arguments.
-/

namespace Salvo

/-- Byte strings are modelled as lists of naturals. -/
abbrev Bytes := List Nat

/-! ### Renewal loop (acme/listener.rs, `Builder::build` lines 213-222) -/

/-- Observable events of one run of the spawned renewal task:
an issuance attempt (with its success flag; a failed attempt is logged by
`tracing::error!` and otherwise ignored), a sleep of `check_duration`,
and the final silent return of the task. -/
inductive RenewEvent where
  | issueAttempt (ok : Bool)
  | sleep
  | exited
  deriving DecidableEq, Repr

/-- Embedding of the task spawned in `Builder::build`:
`while let Some(cert_resolver) = Weak::upgrade(&weak_cert_resolver) {
  if cert_resolver.will_expired(..) { if let Err(..) = issue_cert(..) { log } }
  sleep(check_duration)
}`.
`alive` gives, per iteration, whether `Weak::upgrade` succeeds (i.e.
whether a strong owner of the resolver still exists at that check);
`willExpire n` is the value of `will_expired` at iteration `n`, and
`issueOk n` whether the issuance attempt at iteration `n` succeeds.
The returned trace lists the events the loop performs. The loop body has
no panicking operation and takes no cancellation input: the `alive` list
is its only connection to the outside. -/
def renewalLoop (willExpire issueOk : Nat → Bool) : Nat → List Bool → List RenewEvent
  | _, [] => [RenewEvent.exited]
  | _, false :: _ => [RenewEvent.exited]
  | n, true :: rest =>
    (if willExpire n then [RenewEvent.issueAttempt (issueOk n)] else [])
      ++ RenewEvent.sleep :: renewalLoop willExpire issueOk (n + 1) rest

/-- Embedding of the `Builder` of the ACME listener; the only field the
claims touch is `check_duration` (seconds). The `config_builder` field
holds an `AcmeConfigBuilder`, whose module is not part of this
development. -/
structure Builder where
  checkDuration : Nat

/-- Embedding of `Builder::new`: `check_duration: Duration::from_secs(10 * 60)`. -/
def Builder.new : Builder :=
  { checkDuration := 10 * 60 }

/-! ### ALPN protocols and certificate resolution (acme/listener.rs lines 202-206) -/

/-- Challenge type selected at build time. -/
inductive ChallengeType where
  | Http01
  | TlsAlpn01
  deriving DecidableEq, Repr

/-- The `h2` ALPN protocol identifier. -/
def h2Alpn : String := "h2"

/-- The `http/1.1` ALPN protocol identifier. -/
def http11Alpn : String := "http/1.1"

/-- The ACME TLS-ALPN-01 validation protocol identifier (`acme-tls/1`,
imported by the listener from the resolver module). -/
def acmeTlsAlpnName : String := "acme-tls/1"

/-- Embedding of the ALPN list installed by `Builder::build`:
`alpn_protocols = [h2, http/1.1]`, plus `ACME_TLS_ALPN_NAME` pushed at the
end exactly when the configured challenge type is `TlsAlpn01`. -/
def buildAlpnProtocols (ct : ChallengeType) : List String :=
  let base := [h2Alpn, http11Alpn]
  if ct = ChallengeType.TlsAlpn01 then base ++ [acmeTlsAlpnName] else base

/-- Modelled from the spec: the certificate resolver `ResolveServerCert`
(crates/core/src/conn/acme/resolver.rs, not under src/) branches on the
negotiated application-layer protocol: "on any inbound TLS handshake whose
negotiated application-layer protocol indicates the ACME validation
extension, the TLS Acceptor Abstraction must present a specially
constructed self-signed certificate (embedding the key-authorization
digest) instead of the production identity, for that single handshake".
`challengeCert` is the self-signed challenge certificate, `productionCert`
the identity currently in the store, `helloAlpn` the protocols offered by
the client hello; certificates are opaque values of type `α`. -/
def resolveServerCert {α : Type} (challengeCert productionCert : Option α)
    (helloAlpn : List String) : Option α :=
  if acmeTlsAlpnName ∈ helloAlpn then challengeCert else productionCert

/-! ### Cache loading in `Builder::build` (acme/listener.rs lines 154-194) -/

/-- A certified key as assembled by the cache-loading code: the parsed
certificate chain together with the signing key handle produced by
`any_ecdsa_type`. -/
structure CertifiedKey where
  certs : List Bytes
  key : Nat
  deriving DecidableEq, Repr

/-- Outcome of the cache-loading prefix of `Builder::build`: a normal
return carrying the resolver's initial certificate (if any), an early
`Err` return propagated by `?`, or a panic. -/
inductive BuildOutcome (α : Type) where
  | ok (a : α)
  | ioErr (e : String)
  | panicked (e : String)
  deriving DecidableEq, Repr

/-- Embedding of the cache-loading prefix of `Builder::build` (lines
154-194). The external parsers are parameters: `pkcs8` models
`rustls_pemfile::pkcs8_private_keys`, `parseCerts` models
`rustls_pemfile::certs`, and `anyEcdsa` models
`rustls::sign::any_ecdsa_type` applied to the first parsed key. `cache`
is `none` when no cache path is configured; otherwise it carries the
outcomes of `read_key` and `read_cert` (each may fail with an I/O error,
propagated by `?`, or yield no data). A parse failure of either parser is
logged with `tracing::warn!` and leaves the corresponding slot `none`;
when both a cached certificate and a cached key were obtained, the code
runs `any_ecdsa_type(&PrivateKey(cached_key)).unwrap()`, whose failure is
a panic, modelled by `panicked`. -/
def buildCacheLoad (pkcs8 : Bytes → Except String (List Bytes))
    (parseCerts : Bytes → Except String (List Bytes))
    (anyEcdsa : Bytes → Except String Nat)
    (cache : Option ((Except String (Option Bytes)) × (Except String (Option Bytes)))) :
    BuildOutcome (Option CertifiedKey) :=
  match cache with
  | none => BuildOutcome.ok none
  | some (keyRead, certRead) =>
    match keyRead with
    | Except.error e => BuildOutcome.ioErr e
    | Except.ok keyData =>
      let cachedKey : Option Bytes :=
        match keyData with
        | none => none
        | some kd =>
          match pkcs8 kd with
          | Except.ok keys => keys.head?
          | Except.error _ => none
      match certRead with
      | Except.error e => BuildOutcome.ioErr e
      | Except.ok certData =>
        let cachedCert : Option (List Bytes) :=
          match certData with
          | none => none
          | some cd =>
            match parseCerts cd with
            | Except.ok cs => some cs
            | Except.error _ => none
        match cachedCert, cachedKey with
        | some certs, some key =>
          match anyEcdsa key with
          | Except.ok sk => BuildOutcome.ok (some ⟨certs, sk⟩)
          | Except.error e => BuildOutcome.panicked e
        | _, _ => BuildOutcome.ok none

/-! ### Hot-reloadable accept loop (openssl/listener.rs, `accept` lines 120-160) -/

/-- One resolution of the `tokio::select!` race inside
`OpensslListener::accept`: either the configuration stream yielded an
item, or the inner listener accepted a connection. -/
inductive AcceptEvent (Cfg Conn : Type) where
  | config (c : Cfg)
  | incoming (s : Conn)

/-- The successful outcome of `accept`: the wrapped stream, recording
which acceptor context performs its handshake (the `tls_acceptor` cloned
into the handshake future) and the underlying connection. -/
structure AcceptedConn (Acc Conn : Type) where
  acceptor : Acc
  conn : Conn
  deriving DecidableEq, Repr

/-- The error message returned when a connection arrives with no
configuration installed. -/
def noValidTlsConfig : String := "no valid tls config."

/-- Embedding of the loop body of `OpensslListener::accept`. `build`
models `create_acceptor_builder` followed by `builder.build()`; the first
component of the state is `current_tls_acceptor`. A `config` event whose
build succeeds replaces the current acceptor (logging); one whose build
fails is logged with `tracing::error!` and changes nothing; an `incoming`
event returns from `accept` with the handshake bound to the current
acceptor, or with the `noValidTlsConfig` error when none is installed.
An exhausted event list means the select is still blocked, returning the
carried state and no result yet. -/
def acceptLoop {Cfg Conn Acc : Type} (build : Cfg → Except String Acc) :
    Option Acc → List (AcceptEvent Cfg Conn) →
      Option Acc × Option (Except String (AcceptedConn Acc Conn))
  | cur, [] => (cur, none)
  | cur, AcceptEvent.config c :: rest =>
    match build c with
    | Except.ok a => acceptLoop build (some a) rest
    | Except.error _ => acceptLoop build cur rest
  | cur, AcceptEvent.incoming s :: _ =>
    match cur with
    | some a => (some a, some (Except.ok ⟨a, s⟩))
    | none => (none, some (Except.error noValidTlsConfig))

/-! ### Deferred-handshake stream (openssl/listener.rs, `OpensslStream` lines 163-230) -/

/-- Result of polling the inner `SslStream::poll_accept` handshake once:
still pending, completed successfully, or failed. -/
inductive HsPoll where
  | pending
  | readyOk
  | readyErr (e : String)
  deriving DecidableEq, Repr

/-- A poll result of an inner I/O operation: `Poll::Pending` or
`Poll::Ready(Result)`. -/
inductive IoPoll (α : Type) where
  | pending
  | ready (r : Except String α)

/-- Embedding of the `OpensslStream` state; the inner TLS stream and the
remote address are elided, the behaviour of the inner stream being passed
to each poll method as an argument. -/
structure OpensslStream where
  isReady : Bool
  deriving DecidableEq, Repr

/-- Embedding of `OpensslStream::sync_ready`: when not yet ready, poll the
inner handshake (`hs` is that poll's result); an error is mapped to the
fixed message, a completed handshake sets `is_ready`, and the method
returns `Ok(is_ready)`. When already ready the handshake is not polled. -/
def OpensslStream.sync_ready (st : OpensslStream) (hs : HsPoll) :
    Except String (Bool × OpensslStream) :=
  if st.isReady then Except.ok (true, st)
  else
    match hs with
    | HsPoll.pending => Except.ok (false, st)
    | HsPoll.readyOk => Except.ok (true, { st with isReady := true })
    | HsPoll.readyErr _ => Except.error "failed to accept in openssl"

/-- Embedding of `OpensslStream::poll_read`: gate on `sync_ready`, then
forward to the inner stream's `poll_read` (whose result is `inner`);
return `Pending` while the handshake has not resolved. -/
def OpensslStream.poll_read (st : OpensslStream) (hs : HsPoll)
    (inner : IoPoll Unit) : OpensslStream × IoPoll Unit :=
  match st.sync_ready hs with
  | Except.error e => (st, IoPoll.ready (Except.error e))
  | Except.ok (true, st2) => (st2, inner)
  | Except.ok (false, st2) => (st2, IoPoll.pending)

/-- Embedding of `OpensslStream::poll_write`, gated on `sync_ready` like
`poll_read`; the inner result carries the number of bytes written. -/
def OpensslStream.poll_write (st : OpensslStream) (hs : HsPoll)
    (inner : IoPoll Nat) : OpensslStream × IoPoll Nat :=
  match st.sync_ready hs with
  | Except.error e => (st, IoPoll.ready (Except.error e))
  | Except.ok (true, st2) => (st2, inner)
  | Except.ok (false, st2) => (st2, IoPoll.pending)

/-- Embedding of `OpensslStream::poll_flush`, gated on `sync_ready` like
`poll_read`. -/
def OpensslStream.poll_flush (st : OpensslStream) (hs : HsPoll)
    (inner : IoPoll Unit) : OpensslStream × IoPoll Unit :=
  match st.sync_ready hs with
  | Except.error e => (st, IoPoll.ready (Except.error e))
  | Except.ok (true, st2) => (st2, inner)
  | Except.ok (false, st2) => (st2, IoPoll.pending)

/-- Embedding of `OpensslStream::poll_shutdown`: forwards directly to the
inner stream's `poll_shutdown` without consulting `sync_ready`. -/
def OpensslStream.poll_shutdown (st : OpensslStream)
    (inner : IoPoll Unit) : OpensslStream × IoPoll Unit :=
  (st, inner)

/-! ### Native-tls identity loading (native_tls/config.rs lines 21-82) -/

/-- Embedding of `NativeTlsConfig`. -/
structure NativeTlsConfig where
  pkcs12_path : Option String
  pkcs12 : Bytes
  password : String

/-- Embedding of `NativeTlsConfig::new`. -/
def NativeTlsConfig.new : NativeTlsConfig :=
  { pkcs12_path := none, pkcs12 := [], password := "" }

/-- Embedding of `NativeTlsConfig::with_pkcs12_path`. -/
def NativeTlsConfig.with_pkcs12_path (c : NativeTlsConfig) (p : String) : NativeTlsConfig :=
  { c with pkcs12_path := some p }

/-- Embedding of `NativeTlsConfig::with_pkcs12`. -/
def NativeTlsConfig.with_pkcs12 (c : NativeTlsConfig) (bs : Bytes) : NativeTlsConfig :=
  { c with pkcs12 := bs }

/-- Embedding of `NativeTlsConfig::with_password`. -/
def NativeTlsConfig.with_password (c : NativeTlsConfig) (pw : String) : NativeTlsConfig :=
  { c with password := pw }

/-- Embedding of `NativeTlsConfig::identity`. `readFile` models
`File::open` followed by `read_to_end` (the buffer is empty, so it ends up
holding exactly the file contents); `fromPkcs12` models
`Identity::from_pkcs12`, whose error the source maps into an
`io::Error` and returns. The result is paired with the list of paths the
call actually read, so that "the configured path is ignored" is a
statement about the embedding. The file is touched only when the
in-memory `pkcs12` buffer is empty and a path is configured. -/
def NativeTlsConfig.identity (readFile : String → Except String Bytes)
    (fromPkcs12 : Bytes → String → Except String Nat)
    (c : NativeTlsConfig) : Except String Nat × List String :=
  if c.pkcs12.isEmpty then
    match c.pkcs12_path with
    | some p =>
      match readFile p with
      | Except.ok bs => (fromPkcs12 bs c.password, [p])
      | Except.error e => (Except.error e, [p])
    | none => (fromPkcs12 c.pkcs12 c.password, [])
  else (fromPkcs12 c.pkcs12 c.password, [])

/-! ## Theorems -/

/-- Helper: the control flow of the renewal loop does not depend on the
outcomes of the issuance attempts — the sleep count and the presence of
the final `exited` event are the same for any two issuance behaviours. -/
theorem renewalLoop_io_invariant (we io io2 : Nat → Bool) :
    ∀ (l : List Bool) (n : Nat),
      (renewalLoop we io n l).count RenewEvent.sleep
          = (renewalLoop we io2 n l).count RenewEvent.sleep
        ∧ (RenewEvent.exited ∈ renewalLoop we io n l
            ↔ RenewEvent.exited ∈ renewalLoop we io2 n l) := by
  intro l
  induction l with
  | nil => intro n; simp [renewalLoop]
  | cons b rest ih =>
    intro n
    cases b with
    | false => simp [renewalLoop]
    | true =>
      obtain ⟨hcount, hmem⟩ := ih (n + 1)
      cases h : we n <;>
        simp [renewalLoop, h, List.count_append, List.count_cons, hcount, hmem]

/-- C1: once the last strong owner of the certificate resolver is dropped,
`Weak::upgrade` fails at the next check, and the renewal loop spawned in
`Builder::build` exits at once: after `k` live iterations the trace is
some prefix followed by the single `exited` event, the prefix holding
exactly `k` sleeps (so no further poll interval elapses after the failed
upgrade), and the trace is entirely independent of whatever would come
after the drop — for every expiry predicate and every issuance behaviour,
with no panic and no cancellation input (the model is a total function of
the upgrade outcomes alone). -/
theorem renewalLoop_self_terminating (we io : Nat → Bool) (k : Nat) (n : Nat)
    (r1 r2 : List Bool) :
    (∃ pre : List RenewEvent,
        renewalLoop we io n (List.replicate k true ++ false :: r1)
            = pre ++ [RenewEvent.exited]
          ∧ pre.count RenewEvent.sleep = k)
      ∧ renewalLoop we io n (List.replicate k true ++ false :: r1)
          = renewalLoop we io n (List.replicate k true ++ false :: r2) := by
  induction k generalizing n with
  | zero =>
    exact ⟨⟨[], by simp [renewalLoop], by simp⟩, by simp [renewalLoop]⟩
  | succ k ih =>
    obtain ⟨⟨pre, hpre, hcount⟩, heq⟩ := ih (n + 1)
    constructor
    · refine ⟨(if we n then [RenewEvent.issueAttempt (io n)] else [])
        ++ RenewEvent.sleep :: pre, ?_, ?_⟩
      · simp [List.replicate_succ, renewalLoop, hpre]
      · cases h : we n <;>
          simp [h, List.count_append, List.count_cons, hcount]
    · simp [List.replicate_succ, renewalLoop, heq]

/-- C4: the default poll interval set by `Builder::new` is `10 * 60`
seconds (ten minutes); in a live iteration the loop runs exactly one
issuance attempt when `will_expired` holds and none otherwise, then
proceeds to its sleep and the next iteration either way; and a failing
attempt is swallowed — the loop's sleeps and its eventual exit are
unchanged under any change of the issuance outcomes. -/
theorem renewalLoop_default_interval_and_swallow (we io io2 : Nat → Bool)
    (m n : Nat) (rest l : List Bool)
    (hm : we m = false) (hn : we n = true) :
    Builder.new.checkDuration = 600
      ∧ renewalLoop we io m (true :: rest)
          = RenewEvent.sleep :: renewalLoop we io (m + 1) rest
      ∧ renewalLoop we io n (true :: rest)
          = RenewEvent.issueAttempt (io n)
              :: RenewEvent.sleep :: renewalLoop we io (n + 1) rest
      ∧ (renewalLoop we io n (true :: rest)).count (RenewEvent.issueAttempt (io n)) =
          ((renewalLoop we io (n + 1) rest).count (RenewEvent.issueAttempt (io n)) + 1)
      ∧ (renewalLoop we io 0 l).count RenewEvent.sleep
          = (renewalLoop we io2 0 l).count RenewEvent.sleep
      ∧ (RenewEvent.exited ∈ renewalLoop we io 0 l
          ↔ RenewEvent.exited ∈ renewalLoop we io2 0 l) := by
  obtain ⟨hcount, hmem⟩ := renewalLoop_io_invariant we io io2 l 0
  refine ⟨rfl, by simp [renewalLoop, hm], by simp [renewalLoop, hn], ?_, hcount, hmem⟩
  simp [renewalLoop, hn, List.count_cons]

/-- Witness for C4 at a concrete instantiation: expiry holds at iteration
1 but not 0, and the single attempt there fails. -/
theorem renewalLoop_default_interval_and_swallow_witness :
    Builder.new.checkDuration = 600
      ∧ renewalLoop (fun x => x == 1) (fun _ => false) 0 [true, false]
          = RenewEvent.sleep :: renewalLoop (fun x => x == 1) (fun _ => false) 1 [false]
      ∧ renewalLoop (fun x => x == 1) (fun _ => false) 1 [true, false]
          = RenewEvent.issueAttempt false
              :: RenewEvent.sleep :: renewalLoop (fun x => x == 1) (fun _ => false) 2 [false]
      ∧ (renewalLoop (fun x => x == 1) (fun _ => false) 1 [true, false]).count
            (RenewEvent.issueAttempt false) =
          ((renewalLoop (fun x => x == 1) (fun _ => false) 2 [false]).count
            (RenewEvent.issueAttempt false) + 1)
      ∧ (renewalLoop (fun x => x == 1) (fun _ => false) 0 [true, true, false]).count
            RenewEvent.sleep
          = (renewalLoop (fun x => x == 1) (fun _ => true) 0 [true, true, false]).count
            RenewEvent.sleep
      ∧ (RenewEvent.exited ∈ renewalLoop (fun x => x == 1) (fun _ => false) 0 [true, true, false]
          ↔ RenewEvent.exited
              ∈ renewalLoop (fun x => x == 1) (fun _ => true) 0 [true, true, false]) :=
  renewalLoop_default_interval_and_swallow (fun x => x == 1) (fun _ => false)
    (fun _ => true) 0 1 [false] [true, true, false] rfl rfl

/-- C2: starting from the initial state (no configuration item ever
received, `current_tls_acceptor` is `None`), a connection arriving first
makes `accept` return the configuration-missing error immediately rather
than wait for a configuration, the retained state is unchanged, and the
accept loop continues: a later call that receives a buildable
configuration followed by a connection succeeds with that configuration's
acceptor. -/
theorem acceptLoop_missing_config_error {Cfg Conn Acc : Type}
    (build : Cfg → Except String Acc) (s s2 : Conn) (c : Cfg) (a : Acc)
    (rest rest2 : List (AcceptEvent Cfg Conn))
    (hb : build c = Except.ok a) :
    acceptLoop build none (AcceptEvent.incoming s :: rest)
        = (none, some (Except.error noValidTlsConfig))
      ∧ acceptLoop build none (AcceptEvent.config c :: AcceptEvent.incoming s2 :: rest2)
          = (some a, some (Except.ok ⟨a, s2⟩)) := by
  constructor
  · simp [acceptLoop]
  · simp [acceptLoop, hb]

/-- Witness for C2 at concrete types and inputs. -/
theorem acceptLoop_missing_config_error_witness :
    acceptLoop (fun c : Nat => Except.ok c) none
        ((AcceptEvent.incoming 7 : AcceptEvent Nat Nat) :: [])
        = (none, some (Except.error noValidTlsConfig))
      ∧ acceptLoop (fun c : Nat => Except.ok c) none
          (AcceptEvent.config 3 :: AcceptEvent.incoming (8 : Nat) :: [])
          = (some 3, some (Except.ok ⟨3, 8⟩)) :=
  acceptLoop_missing_config_error (fun c : Nat => Except.ok c) 7 8 3 3 [] [] rfl

/-- C3: when the resolved event order is configuration `c1`, then
configuration `c2` (both building successfully), then a connection, the
connection is handshaked with `c2`'s acceptor context — the most recently
installed one — and, whenever the two contexts differ, not with `c1`'s;
this holds from any starting state. -/
theorem acceptLoop_uses_latest_config {Cfg Conn Acc : Type}
    (build : Cfg → Except String Acc) (cur : Option Acc) (c1 c2 : Cfg)
    (a1 a2 : Acc) (s : Conn) (rest : List (AcceptEvent Cfg Conn))
    (h1 : build c1 = Except.ok a1) (h2 : build c2 = Except.ok a2)
    (hne : a1 ≠ a2) :
    acceptLoop build cur
        (AcceptEvent.config c1 :: AcceptEvent.config c2 :: AcceptEvent.incoming s :: rest)
        = (some a2, some (Except.ok ⟨a2, s⟩))
      ∧ acceptLoop build cur
          (AcceptEvent.config c1 :: AcceptEvent.config c2 :: AcceptEvent.incoming s :: rest)
          ≠ (some a1, some (Except.ok ⟨a1, s⟩)) := by
  have hmain : acceptLoop build cur
      (AcceptEvent.config c1 :: AcceptEvent.config c2 :: AcceptEvent.incoming s :: rest)
      = (some a2, some (Except.ok ⟨a2, s⟩)) := by
    simp [acceptLoop, h1, h2]
  refine ⟨hmain, ?_⟩
  rw [hmain]
  intro hcontra
  exact hne (Option.some.inj (congrArg Prod.fst hcontra)).symm

/-- Witness for C3 at concrete types and inputs. -/
theorem acceptLoop_uses_latest_config_witness :
    acceptLoop (fun c : Nat => Except.ok c) (none : Option Nat)
        (AcceptEvent.config 1 :: AcceptEvent.config 2 :: AcceptEvent.incoming (9 : Nat) :: [])
        = (some 2, some (Except.ok ⟨2, 9⟩))
      ∧ acceptLoop (fun c : Nat => Except.ok c) (none : Option Nat)
          (AcceptEvent.config 1 :: AcceptEvent.config 2 :: AcceptEvent.incoming (9 : Nat) :: [])
          ≠ (some 1, some (Except.ok ⟨1, 9⟩)) :=
  acceptLoop_uses_latest_config (fun c : Nat => Except.ok c) none 1 2 1 2 9 [] rfl rfl
    (by decide)

/-- C8: a configuration item that fails to build an acceptor context is a
no-op on the loop state — processing it and then the remaining events is
the same as processing the remaining events alone; in particular a
connection following the bad item is handshaked with the previously
installed context, and fails with the configuration-missing error when no
context was ever installed. -/
theorem acceptLoop_bad_config_keeps_current {Cfg Conn Acc : Type}
    (build : Cfg → Except String Acc) (cur : Option Acc) (c : Cfg) (e : String)
    (a : Acc) (s : Conn) (rest1 rest : List (AcceptEvent Cfg Conn))
    (hb : build c = Except.error e) :
    acceptLoop build cur (AcceptEvent.config c :: rest1) = acceptLoop build cur rest1
      ∧ acceptLoop build (some a) (AcceptEvent.config c :: AcceptEvent.incoming s :: rest)
          = (some a, some (Except.ok ⟨a, s⟩))
      ∧ acceptLoop build none (AcceptEvent.config c :: AcceptEvent.incoming s :: rest)
          = (none, some (Except.error noValidTlsConfig)) := by
  refine ⟨?_, ?_, ?_⟩ <;> simp [acceptLoop, hb]

/-- Witness for C8 at concrete types and inputs. -/
theorem acceptLoop_bad_config_keeps_current_witness :
    acceptLoop (fun _ : Nat => (Except.error "invalid tls config." : Except String Nat))
        (some 5) (AcceptEvent.config 0 :: [AcceptEvent.incoming (4 : Nat)])
        = acceptLoop (fun _ : Nat => (Except.error "invalid tls config." : Except String Nat))
          (some 5) [AcceptEvent.incoming (4 : Nat)]
      ∧ acceptLoop (fun _ : Nat => (Except.error "invalid tls config." : Except String Nat))
          (some 5) (AcceptEvent.config 0 :: AcceptEvent.incoming (4 : Nat) :: [])
          = (some 5, some (Except.ok ⟨5, 4⟩))
      ∧ acceptLoop (fun _ : Nat => (Except.error "invalid tls config." : Except String Nat))
          none (AcceptEvent.config 0 :: AcceptEvent.incoming (4 : Nat) :: [])
          = (none, some (Except.error noValidTlsConfig)) :=
  acceptLoop_bad_config_keeps_current
    (fun _ : Nat => (Except.error "invalid tls config." : Except String Nat))
    (some 5) 0 "invalid tls config." 5 4 [AcceptEvent.incoming (4 : Nat)] [] rfl

/-- C6: the handshake is completed lazily on the stream: while the stream
is not yet ready and the inner handshake poll is still pending,
`poll_read`, `poll_write` and `poll_flush` all return `Pending` (after
driving the handshake) and never the inner I/O result; once the handshake
resolves successfully — either in this poll or previously (`is_ready`
set) — each of them forwards the inner I/O result. -/
theorem opensslStream_defers_handshake (innerR innerF : IoPoll Unit)
    (innerW : IoPoll Nat) (hs : HsPoll) :
    OpensslStream.poll_read ⟨false⟩ HsPoll.pending innerR = (⟨false⟩, IoPoll.pending)
      ∧ OpensslStream.poll_write ⟨false⟩ HsPoll.pending innerW = (⟨false⟩, IoPoll.pending)
      ∧ OpensslStream.poll_flush ⟨false⟩ HsPoll.pending innerF = (⟨false⟩, IoPoll.pending)
      ∧ OpensslStream.poll_read ⟨false⟩ HsPoll.readyOk innerR = (⟨true⟩, innerR)
      ∧ OpensslStream.poll_write ⟨false⟩ HsPoll.readyOk innerW = (⟨true⟩, innerW)
      ∧ OpensslStream.poll_flush ⟨false⟩ HsPoll.readyOk innerF = (⟨true⟩, innerF)
      ∧ OpensslStream.poll_read ⟨true⟩ hs innerR = (⟨true⟩, innerR)
      ∧ OpensslStream.poll_write ⟨true⟩ hs innerW = (⟨true⟩, innerW)
      ∧ OpensslStream.poll_flush ⟨true⟩ hs innerF = (⟨true⟩, innerF) := by
  refine ⟨?_, ?_, ?_, ?_, ?_, ?_, ?_, ?_, ?_⟩ <;>
    simp [OpensslStream.poll_read, OpensslStream.poll_write, OpensslStream.poll_flush,
      OpensslStream.sync_ready]

/-- C9: `poll_shutdown` forwards directly to the inner stream for every
stream state, without consulting `sync_ready` — in particular on a stream
whose handshake has never resolved it still returns the inner shutdown
result, while `poll_read`, `poll_write` and `poll_flush` on that same
stream return `Pending`. -/
theorem opensslStream_shutdown_not_gated (st : OpensslStream)
    (inner innerR innerF : IoPoll Unit) (innerW : IoPoll Nat) :
    OpensslStream.poll_shutdown st inner = (st, inner)
      ∧ OpensslStream.poll_shutdown ⟨false⟩ inner = (⟨false⟩, inner)
      ∧ OpensslStream.poll_read ⟨false⟩ HsPoll.pending innerR = (⟨false⟩, IoPoll.pending)
      ∧ OpensslStream.poll_write ⟨false⟩ HsPoll.pending innerW = (⟨false⟩, IoPoll.pending)
      ∧ OpensslStream.poll_flush ⟨false⟩ HsPoll.pending innerF = (⟨false⟩, IoPoll.pending) := by
  refine ⟨rfl, rfl, ?_, ?_, ?_⟩ <;>
    simp [OpensslStream.poll_read, OpensslStream.poll_write, OpensslStream.poll_flush,
      OpensslStream.sync_ready]

/-- C7: the server config built by `Builder::build` advertises the ACME
validation protocol exactly when the TLS-ALPN-01 challenge type was
configured (always alongside `h2` and `http/1.1`), and — per the
spec-modelled resolver — a handshake whose client hello negotiates the
ACME validation protocol is presented the self-signed challenge
certificate and never the production identity, even while a production
identity is present in the store. -/
theorem acme_alpn_challenge_resolution {α : Type} (ct : ChallengeType)
    (challengeCert : α) (productionCert : Option α) (helloAlpn : List String)
    (p : α) (hmem : acmeTlsAlpnName ∈ helloAlpn)
    (_hp : productionCert = some p) (hdiff : p ≠ challengeCert) :
    (acmeTlsAlpnName ∈ buildAlpnProtocols ct ↔ ct = ChallengeType.TlsAlpn01)
      ∧ h2Alpn ∈ buildAlpnProtocols ct
      ∧ http11Alpn ∈ buildAlpnProtocols ct
      ∧ resolveServerCert (some challengeCert) productionCert helloAlpn
          = some challengeCert
      ∧ resolveServerCert (some challengeCert) productionCert helloAlpn ≠ some p := by
  have hres : resolveServerCert (some challengeCert) productionCert helloAlpn
      = some challengeCert := by
    simp [resolveServerCert, hmem]
  refine ⟨?_, ?_, ?_, hres, ?_⟩
  · cases ct <;> simp [buildAlpnProtocols, acmeTlsAlpnName, h2Alpn, http11Alpn]
  · cases ct <;> simp [buildAlpnProtocols, h2Alpn, http11Alpn]
  · cases ct <;> simp [buildAlpnProtocols, h2Alpn, http11Alpn]
  · rw [hres]
    intro hcontra
    exact hdiff (Option.some.inj hcontra).symm

/-- Witness for C7 at a concrete instantiation: TLS-ALPN-01 configured, a
client hello negotiating only the validation protocol, and a production
identity in the store distinct from the challenge certificate. -/
theorem acme_alpn_challenge_resolution_witness :
    (acmeTlsAlpnName ∈ buildAlpnProtocols ChallengeType.TlsAlpn01
        ↔ ChallengeType.TlsAlpn01 = ChallengeType.TlsAlpn01)
      ∧ h2Alpn ∈ buildAlpnProtocols ChallengeType.TlsAlpn01
      ∧ http11Alpn ∈ buildAlpnProtocols ChallengeType.TlsAlpn01
      ∧ resolveServerCert (some 5) (some 9) [acmeTlsAlpnName] = some (5 : Nat)
      ∧ resolveServerCert (some 5) (some 9) [acmeTlsAlpnName] ≠ some (9 : Nat) :=
  acme_alpn_challenge_resolution ChallengeType.TlsAlpn01 (5 : Nat) (some 9)
    [acmeTlsAlpnName] 9 (by simp) rfl (by decide)

/-- C5: failing input for the cache-loading code of `Builder::build`. A
cached key that parses as a PKCS#8 PEM block but is not an ECDSA key
(for example an RSA PKCS#8 key) passes `pkcs8_private_keys`, so it is not
treated as malformed, and then `any_ecdsa_type(..).unwrap()` panics —
startup fails because of the contents of the cache, where the claim (and
the surrounding code, which logs and proceeds on both parse failures,
shown in the second and third conjuncts, as well as on absent entries,
shown in the fourth) requires the entry to be treated as absent. -/
theorem buildCacheLoad_panics_on_non_ecdsa_key :
    buildCacheLoad (fun _ => Except.ok [[1]]) (fun _ => Except.ok [[2]])
        (fun _ => Except.error "invalid ecdsa key")
        (some (Except.ok (some [9]), Except.ok (some [9])))
        = BuildOutcome.panicked "invalid ecdsa key"
      ∧ buildCacheLoad (fun _ => Except.error "bad key pem") (fun _ => Except.ok [[2]])
          (fun _ => Except.error "invalid ecdsa key")
          (some (Except.ok (some [9]), Except.ok (some [9])))
          = BuildOutcome.ok none
      ∧ buildCacheLoad (fun _ => Except.ok [[1]]) (fun _ => Except.error "bad cert pem")
          (fun _ => Except.error "invalid ecdsa key")
          (some (Except.ok (some [9]), Except.ok (some [9])))
          = BuildOutcome.ok none
      ∧ buildCacheLoad (fun _ => Except.ok [[1]]) (fun _ => Except.ok [[2]])
          (fun _ => Except.error "invalid ecdsa key")
          (some (Except.ok none, Except.ok none))
          = BuildOutcome.ok none := by
  refine ⟨rfl, rfl, rfl, rfl⟩

/-- C10: `NativeTlsConfig::identity` consults the configured path only
when the in-memory `pkcs12` buffer is empty: with a non-empty buffer the
result comes from the buffer and reads no path at all (hence is
independent of the file system), with an empty buffer and a configured
path it reads exactly that path, with neither it parses the empty buffer,
and a parse failure of the PKCS#12 material is returned as an error value
rather than a panic. -/
theorem nativeTls_identity_buffer_over_path
    (readF readF2 : String → Except String Bytes)
    (fromP : Bytes → String → Except String Nat)
    (c : NativeTlsConfig) (p pw e : String) (bs : Bytes)
    (hne : c.pkcs12 ≠ [])
    (hread : readF p = Except.ok bs)
    (herr : fromP bs pw = Except.error e) :
    NativeTlsConfig.identity readF fromP c = (fromP c.pkcs12 c.password, [])
      ∧ NativeTlsConfig.identity readF fromP c = NativeTlsConfig.identity readF2 fromP c
      ∧ NativeTlsConfig.identity readF fromP ⟨some p, [], pw⟩ = (Except.error e, [p])
      ∧ NativeTlsConfig.identity readF fromP ⟨none, [], pw⟩ = (fromP [] pw, []) := by
  have hempty : c.pkcs12.isEmpty = false := by
    cases h : c.pkcs12 with
    | nil => exact absurd h hne
    | cons x xs => simp
  refine ⟨?_, ?_, ?_, ?_⟩
  · simp [NativeTlsConfig.identity, hempty]
  · simp [NativeTlsConfig.identity, hempty]
  · simp [NativeTlsConfig.identity, hread, herr]
  · simp [NativeTlsConfig.identity]

/-- Witness for C10 at a concrete instantiation: a config whose buffer
holds bytes and whose path is nevertheless configured, a second file
system disagreeing with the first, and a parser that rejects the
material. -/
theorem nativeTls_identity_buffer_over_path_witness :
    NativeTlsConfig.identity (fun _ => Except.ok [3]) (fun _ _ => Except.error "bad pkcs12")
        ⟨some "unused", [1], "pw"⟩
        = ((Except.error "bad pkcs12" : Except String Nat), [])
      ∧ NativeTlsConfig.identity (fun _ => Except.ok [3])
          (fun _ _ => Except.error "bad pkcs12") ⟨some "unused", [1], "pw"⟩
          = NativeTlsConfig.identity (fun _ => Except.error "io failure")
            (fun _ _ => Except.error "bad pkcs12") ⟨some "unused", [1], "pw"⟩
      ∧ NativeTlsConfig.identity (fun _ => Except.ok [3])
          (fun _ _ => Except.error "bad pkcs12") ⟨some "p12", [], "pw"⟩
          = (Except.error "bad pkcs12", ["p12"])
      ∧ NativeTlsConfig.identity (fun _ => Except.ok [3])
          (fun _ _ => Except.error "bad pkcs12") ⟨none, [], "pw"⟩
          = ((Except.error "bad pkcs12" : Except String Nat), []) :=
  nativeTls_identity_buffer_over_path (fun _ => Except.ok [3])
    (fun _ => Except.error "io failure") (fun _ _ => Except.error "bad pkcs12")
    ⟨some "unused", [1], "pw"⟩ "p12" "pw" "bad pkcs12" [3] (by simp) rfl rfl

end Salvo
